import Mathlib

/-!
Verification of the LED-strip controller firmware
(`src/arduino-led-strip/arduino-led-strip.ino`).

The firmware is shallowly embedded: the global mutable variables become the
fields of `LedState`, the FastLED display side effects become an explicit
`Display` value, the wall clock `millis()` and the PRNG `random8()` become
explicit parameters (a timestamp, and a stream `rng : ℕ → ℕ` with a cursor
position).  `unsigned long` arithmetic is modelled as `ℕ` with reduction
modulo `2^32` where the source can overflow or wrap.
-/

namespace LedStrip

/-- Modulus of the Arduino `unsigned long` (32-bit) arithmetic. -/
def U32 : ℕ := 4294967296

/-- 32-bit wrapping subtraction `a - b` on unsigned longs (both `< U32`). -/
def sub32 (a b : ℕ) : ℕ := (a + U32 - b) % U32

/-- Buttons on the remote control, in the source enumeration order
(`Receiver::Button`). -/
inductive Button where
  | POWER | FUNC_STOP | VOL_PLUS | FAST_BACK | PAUSE | FAST_FORWARD
  | DOWN | VOL_MINUS | UP | EQ | ST_REPT
  | NUM_0 | NUM_1 | NUM_2 | NUM_3 | NUM_4 | NUM_5 | NUM_6 | NUM_7 | NUM_8 | NUM_9
  | NONE
deriving DecidableEq, Repr

/-- Numeric value of a button in the C enumeration (used by the source for
the comparisons `button >= NUM_0 && button <= NUM_9` and the subtraction
`button - NUM_0`). -/
def buttonCode : Button → ℕ
  | .POWER => 0 | .FUNC_STOP => 1 | .VOL_PLUS => 2 | .FAST_BACK => 3 | .PAUSE => 4
  | .FAST_FORWARD => 5 | .DOWN => 6 | .VOL_MINUS => 7 | .UP => 8 | .EQ => 9
  | .ST_REPT => 10
  | .NUM_0 => 11 | .NUM_1 => 12 | .NUM_2 => 13 | .NUM_3 => 14 | .NUM_4 => 15
  | .NUM_5 => 16 | .NUM_6 => 17 | .NUM_7 => 18 | .NUM_8 => 19 | .NUM_9 => 20
  | .NONE => 21

/-- An RGB color (model of FastLED's `CRGB`). -/
structure CRGB where
  r : ℕ
  g : ℕ
  b : ℕ
deriving DecidableEq, Repr

/-- The black (off) color. -/
def CRGB.black : CRGB := ⟨0, 0, 0⟩

/-- `NUM_LEDS`: number of addressable LED groups. -/
def NUM_LEDS : ℕ := 50

/-- The FastLED display state: `leds` is the in-memory buffer the scenarios
write to, `hw` is the frame last pushed to the hardware by `FastLED.show()`,
and `outBrightness` the global output brightness set by
`FastLED.setBrightness`. -/
structure Display where
  leds : List CRGB
  hw : List CRGB
  outBrightness : ℕ
deriving DecidableEq, Repr

/-- `FastLED.clear()`: blank the in-memory buffer. -/
def fastledClear (d : Display) : Display :=
  { d with leds := List.replicate NUM_LEDS CRGB.black }

/-- `FastLED.show()`: push the in-memory buffer to the hardware. -/
def fastledShow (d : Display) : Display :=
  { d with hw := d.leds }

/-- `FastLED.setBrightness(b)`. -/
def fastledSetBrightness (d : Display) (b : ℕ) : Display :=
  { d with outBrightness := b }

/-- The all-black frame produced by `FastLED.clear()` + `FastLED.show()`. -/
def blankFrame : List CRGB := List.replicate NUM_LEDS CRGB.black

/-- `NUM_SCENARIOS`: total amount of scenarios. -/
def NUM_SCENARIOS : ℕ := 10

/-- `NUM_BRIGHTNESS_STEPS`. -/
def NUM_BRIGHTNESS_STEPS : ℕ := 4

/-- `brightnessMap`: brightness step to output brightness. -/
def brightnessMap : List ℕ := [25, 100, 175, 255]

/-- `NUM_SPEED_STEPS`. -/
def NUM_SPEED_STEPS : ℕ := 5

/-- `DEFAULT_SPEED_STEP`: the speed step that corresponds to 1:1 speed. -/
def DEFAULT_SPEED_STEP : ℕ := 2

/-- `SCENARIO_SWITCH_TIMEOUT`: auto-rotate period in milliseconds. -/
def SCENARIO_SWITCH_TIMEOUT : ℕ := 60000

/-- `NUM_STANDARD_COLORS`. -/
def NUM_STANDARD_COLORS : ℕ := 7

/-- `scenarios[i].numVariants` as registered by `setupScenarios`:
scenarios 0, 1, 6 and 7 have `NUM_STANDARD_COLORS` variants, the others
have a single variant.  Out-of-range indices yield 0 (never registered). -/
def scenarioNumVariants (i : ℕ) : ℕ :=
  [NUM_STANDARD_COLORS, NUM_STANDARD_COLORS, 1, 1, 1, 1,
   NUM_STANDARD_COLORS, NUM_STANDARD_COLORS, 1, 1].getD i 0

/-- The global mutable variables of the firmware that the controller state
machine touches. -/
structure LedState where
  currentScenario : ℕ
  currentBrightness : ℕ
  isSwitchedOn : Bool
  currentVariant : ℕ
  currentSpeed : ℕ
  isSwitchModeActive : Bool
  lastScenarioSwitchTimestamp : ℕ
deriving DecidableEq, Repr

/-- The startup state (`currentScenario = 0`, `currentBrightness` max,
switched on, variant 0, default speed, switch mode off); the initial
timestamp is the `millis()` value at global initialization, taken as a
parameter. -/
def initialState (t : ℕ) : LedState :=
  { currentScenario := 0
    currentBrightness := NUM_BRIGHTNESS_STEPS - 1
    isSwitchedOn := true
    currentVariant := 0
    currentSpeed := DEFAULT_SPEED_STEP
    isSwitchModeActive := false
    lastScenarioSwitchTimestamp := t }

/-- Cases 3 to 6 of `readReceiverAndProcess` (variant selection, brightness,
speed, switch mode), reached when cases 1 and 2 did not return.  `now` is
the `millis()` value used by the `ST_REPT` branch. -/
def processCases3to6 (button : Button) (now : ℕ) (s : LedState) (d : Display) :
    Bool × LedState × Display :=
  -- Case 3: Select a scenario variant.
  let numVariants := scenarioNumVariants s.currentScenario
  if button = Button.FAST_FORWARD ∨ button = Button.FAST_BACK then
    -- Do nothing if there is only one variant for the current scenario.
    if numVariants = 1 then (false, s, d)
    else
      -- The counter is looped, so after the last variant we jump back to the first one.
      let s :=
        if button = Button.FAST_FORWARD then
          { s with currentVariant := (s.currentVariant + 1) % numVariants }
        else
          { s with currentVariant := (numVariants + s.currentVariant - 1) % numVariants }
      (true, s, fastledShow (fastledClear d))
  else
    -- Case 4: Brightness value.
    let sd :=
      if button = Button.VOL_PLUS then
        let s := { s with
          currentBrightness := min (s.currentBrightness + 1) (NUM_BRIGHTNESS_STEPS - 1) }
        (s, fastledSetBrightness d (brightnessMap.getD s.currentBrightness 0))
      else if button = Button.VOL_MINUS then
        let s := { s with currentBrightness := max (s.currentBrightness - 1) 0 }
        (s, fastledSetBrightness d (brightnessMap.getD s.currentBrightness 0))
      else (s, d)
    let s := sd.1
    let d := sd.2
    -- Case 5: Speed value.
    let s :=
      if button = Button.UP then
        { s with currentSpeed := min (s.currentSpeed + 1) (NUM_SPEED_STEPS - 1) }
      else if button = Button.DOWN then
        { s with currentSpeed := max (s.currentSpeed - 1) 0 }
      else s
    -- Case 6: Switch mode.
    let s :=
      if button = Button.ST_REPT then
        { s with isSwitchModeActive := !s.isSwitchModeActive
                 lastScenarioSwitchTimestamp := now }
      else s
    (false, s, d)

/-- `readReceiverAndProcess`, with the decoded button and the current
`millis()` value as explicit inputs.  Returns the cancellation flag together
with the updated state and display. -/
def readReceiverAndProcess (button : Button) (now : ℕ) (s0 : LedState) (d0 : Display) :
    Bool × LedState × Display :=
  -- Case 1: Switch on and off the LED strip.
  let s := if button = Button.POWER then { s0 with isSwitchedOn := !s0.isSwitchedOn } else s0
  if button = Button.POWER ∧ s.isSwitchedOn = false then
    -- Clean up the strip and force the running scenario to cancel.
    (true, s, fastledShow (fastledClear d0))
  -- If the LED strip is switched off, no commands are accepted.
  else if s.isSwitchedOn = false then
    (true, s, d0)
  else
    -- Case 2: Select a scenario.
    let case2 :=
      if 11 ≤ buttonCode button ∧ buttonCode button ≤ 20 then
        -- Convert button number into a scenario index.
        let newScenario := buttonCode button - 11
        -- Validate the scenario index.
        if NUM_SCENARIOS ≤ newScenario then some (false, s, d0)
        -- Switch and restart the scenario only if it is really changed.
        else if s.currentScenario ≠ newScenario then
          some (true,
                { s with currentScenario := newScenario, currentVariant := 0 },
                fastledShow (fastledClear d0))
        else none
      else none
    match case2 with
    | some r => r
    | none => processCases3to6 button now s d0

/-- `shouldSwitchScenario`, with the `millis()` value as input.  Returns the
decision and the (possibly timestamp-updated) state. -/
def shouldSwitchScenario (s : LedState) (now : ℕ) : Bool × LedState :=
  -- Does not work outside the switch mode.
  if s.isSwitchModeActive = false then (false, s)
  -- Check if the timeout has passed.
  else if SCENARIO_SWITCH_TIMEOUT < sub32 now s.lastScenarioSwitchTimestamp then
    (true, { s with lastScenarioSwitchTimestamp := now })
  else (false, s)

/-- The rejection-sampling loop of `selectRandomScenario`: draw
`random8() % NUM_SCENARIOS` from the random stream `rng` at cursor `pos`
until the draw differs from the current scenario `cur`.  The loop of the
source has no bound; here it carries explicit fuel and returns the chosen
scenario together with the next unused cursor position. -/
def selectRandomScenarioLoop (rng : ℕ → ℕ) (cur : ℕ) : ℕ → ℕ → Option (ℕ × ℕ)
  | _, 0 => none
  | pos, fuel + 1 =>
    -- Take a random one (random8 yields a byte).
    let scenario := rng pos % 256 % NUM_SCENARIOS
    -- Make sure this is not the currently active one.
    if scenario = cur then selectRandomScenarioLoop rng cur (pos + 1) fuel
    else some (scenario, pos + 1)

/-- The speed adjustment `milliseconds()` applies to `millis()`:
multiply when above the default speed (with 32-bit overflow), divide when
below. -/
def milliseconds (speed millisNow : ℕ) : ℕ :=
  let adjustedTime := millisNow
  -- If the current speed is higher than the normal one, increase the time value.
  let adjustedTime :=
    if DEFAULT_SPEED_STEP < speed then
      (adjustedTime * (speed - DEFAULT_SPEED_STEP + 1)) % U32
    else adjustedTime
  -- If the current speed is lower than the normal one, decrease the time value.
  let adjustedTime :=
    if speed < DEFAULT_SPEED_STEP then
      adjustedTime / (DEFAULT_SPEED_STEP - speed + 1)
    else adjustedTime
  adjustedTime

/-- The speed adjustment `sleep()` applies to its requested duration:
divide when above the default speed, multiply when below (with 32-bit
overflow). -/
def sleepAdjustDuration (ms speed : ℕ) : ℕ :=
  let adjustedTime := ms
  -- If the current speed is higher than the normal one, decrease the time value.
  let adjustedTime :=
    if DEFAULT_SPEED_STEP < speed then
      adjustedTime / (speed - DEFAULT_SPEED_STEP + 1)
    else adjustedTime
  -- If the current speed is lower than the normal one, increase the time value.
  let adjustedTime :=
    if speed < DEFAULT_SPEED_STEP then
      (adjustedTime * (DEFAULT_SPEED_STEP - speed + 1)) % U32
    else adjustedTime
  adjustedTime

/-- The scaling `milliseconds()` applies, over the rationals (exact
division): the scaling factor of the animation clock as a function of the
speed step, applied to an elapsed wall time `t`. -/
def millisecondsScaleQ (speed : ℕ) (t : ℚ) : ℚ :=
  let adjustedTime := t
  let adjustedTime :=
    if DEFAULT_SPEED_STEP < speed then
      adjustedTime * ((speed - DEFAULT_SPEED_STEP + 1 : ℕ) : ℚ)
    else adjustedTime
  let adjustedTime :=
    if speed < DEFAULT_SPEED_STEP then
      adjustedTime / ((DEFAULT_SPEED_STEP - speed + 1 : ℕ) : ℚ)
    else adjustedTime
  adjustedTime

/-- The scaling `sleep()` applies to a requested duration, over the
rationals (exact division). -/
def sleepScaleQ (speed : ℕ) (d : ℚ) : ℚ :=
  let adjustedTime := d
  let adjustedTime :=
    if DEFAULT_SPEED_STEP < speed then
      adjustedTime / ((speed - DEFAULT_SPEED_STEP + 1 : ℕ) : ℚ)
    else adjustedTime
  let adjustedTime :=
    if speed < DEFAULT_SPEED_STEP then
      adjustedTime * ((DEFAULT_SPEED_STEP - speed + 1 : ℕ) : ℚ)
    else adjustedTime
  adjustedTime

/-- The busy-poll do-while loop of `sleep()`: each iteration reads one
decoded button at some `millis()` timestamp (the `trace` supplies both),
processes it, returns `true` on cancellation, and otherwise keeps looping
while `millis() - startTime <= adjustedTime`.  `none` models a trace too
short to reach the loop exit. -/
def sleepLoop (startTime adjustedTime : ℕ) :
    List (Button × ℕ) → LedState → Display → Option (Bool × LedState × Display)
  | [], _, _ => none
  | (b, t) :: rest, s, d =>
    let r := readReceiverAndProcess b t s d
    -- If the signal forces us to cancel the scenario, return true.
    if r.1 then some (true, r.2.1, r.2.2)
    else if sub32 t startTime ≤ adjustedTime then
      sleepLoop startTime adjustedTime rest r.2.1 r.2.2
    else some (false, r.2.1, r.2.2)

/-- `sleep(ms)`: the cooperative wait primitive.  `now` is the `millis()`
value on entry, `rng`/`pos` the random stream and its cursor, `fuel` bounds
the rejection sampling of `selectRandomScenario`, and `trace` feeds the
polling loop.  Returns the cancellation flag, the updated state and
display, and the next random cursor. -/
def sleep (ms : ℕ) (s : LedState) (d : Display) (now : ℕ) (rng : ℕ → ℕ)
    (pos fuel : ℕ) (trace : List (Button × ℕ)) :
    Option (Bool × LedState × Display × ℕ) :=
  -- Check if we should drop the scenario execution due to switch mode timeout.
  let r := shouldSwitchScenario s now
  let s := r.2
  if r.1 then
    -- Clean up the strip.
    let d := fastledShow (fastledClear d)
    match selectRandomScenarioLoop rng s.currentScenario pos fuel with
    | none => none
    | some (scenario, pos2) =>
      let s := { s with currentScenario := scenario }
      let s := { s with
        currentVariant := rng pos2 % 256 % scenarioNumVariants s.currentScenario }
      some (true, s, d, pos2 + 1)
  else
    -- Calculate time adjusted to the current speed value.
    let adjustedTime := sleepAdjustDuration ms s.currentSpeed
    -- Emulate delay() constantly looking for the remote control signal.
    let startTime := now
    (sleepLoop startTime adjustedTime trace s d).map fun q => (q.1, q.2.1, q.2.2, pos)

/-- Fold a list of decoded buttons through `readReceiverAndProcess`
(at `millis() = 0`), keeping state and display. -/
def applyCommands : List Button → LedState → Display → LedState × Display
  | [], s, d => (s, d)
  | b :: rest, s, d =>
    let r := readReceiverAndProcess b 0 s d
    applyCommands rest r.2.1 r.2.2

/-- Fold a list of decoded buttons through `readReceiverAndProcess`,
counting how many calls signalled cancellation. -/
def runCommands : List Button → LedState → Display → ℕ × LedState × Display
  | [], s, d => (0, s, d)
  | b :: rest, s, d =>
    let r := readReceiverAndProcess b 0 s d
    let rest' := runCommands rest r.2.1 r.2.2
    ((if r.1 then 1 else 0) + rest'.1, rest'.2)

/-- The controller-state invariant: the scenario index is in range and the
variant index is valid for the current scenario. -/
def VariantInv (s : LedState) : Prop :=
  s.currentScenario < NUM_SCENARIOS ∧
  s.currentVariant < scenarioNumVariants s.currentScenario

instance (s : LedState) : Decidable (VariantInv s) := by
  unfold VariantInv; infer_instance

/-- A blank display with full output brightness, as after startup. -/
def display0 : Display :=
  { leds := blankFrame, hw := blankFrame, outBrightness := brightnessMap.getD 3 0 }

/-- C1 (amended): applying POWER toggles `isSwitchedOn`; when the toggle
leaves the device off, the display buffer is blanked and pushed and the call
returns `true`; when the toggle leaves the device on, the call returns
`false` and the display is untouched. -/
theorem C1_power_toggle (now : ℕ) (s : LedState) (d : Display) :
    (readReceiverAndProcess Button.POWER now s d).2.1.isSwitchedOn = !s.isSwitchedOn ∧
    (s.isSwitchedOn = true →
      readReceiverAndProcess Button.POWER now s d =
        (true, { s with isSwitchedOn := false }, fastledShow (fastledClear d))) ∧
    (s.isSwitchedOn = false →
      readReceiverAndProcess Button.POWER now s d =
        (false, { s with isSwitchedOn := true }, d)) := by
  cases h : s.isSwitchedOn <;>
    simp [readReceiverAndProcess, processCases3to6, buttonCode, h]

/-- C1 counterexample: from a powered-off state, the POWER command (an
off-to-on power change) returns `false` — it does not signal cancellation
(and it does not blank the display, as the state equation in
`C1_power_toggle` shows), contradicting the claim that every power change
returns `true`. -/
theorem C1_power_counterexample :
    (readReceiverAndProcess Button.POWER 0
        ⟨0, 3, false, 0, 2, false, 0⟩ display0).1 = false ∧
    (readReceiverAndProcess Button.POWER 0
        ⟨0, 3, false, 0, 2, false, 0⟩ display0).2.1.isSwitchedOn = true := by
  decide

/-- C1 witness: the on-to-off toggle at a concrete state. -/
theorem C1_power_toggle_witness :
    readReceiverAndProcess Button.POWER 0 ⟨0, 3, true, 0, 2, false, 0⟩ display0 =
      (true, ⟨0, 3, false, 0, 2, false, 0⟩, fastledShow (fastledClear display0)) :=
  (C1_power_toggle 0 ⟨0, 3, true, 0, 2, false, 0⟩ display0).2.1 rfl

/-- C2: for every valid speed step, the scaling the animation clock
`milliseconds()` applies to elapsed wall time and the scaling `sleep()`
applies to a requested duration are exact multiplicative inverses: composing
the two (in either order) is the identity on durations. -/
theorem C2_speed_scaling_inverse (speed : ℕ) (h : speed < NUM_SPEED_STEPS) (d : ℚ) :
    millisecondsScaleQ speed (sleepScaleQ speed d) = d ∧
    sleepScaleQ speed (millisecondsScaleQ speed d) = d := by
  unfold NUM_SPEED_STEPS at h
  interval_cases speed <;>
    simp [millisecondsScaleQ, sleepScaleQ, DEFAULT_SPEED_STEP]

/-- C2 witness: speed step 4 (factor 3) on the duration 7. -/
theorem C2_speed_scaling_inverse_witness :
    4 < NUM_SPEED_STEPS ∧
    (millisecondsScaleQ 4 (sleepScaleQ 4 7) = 7 ∧
     sleepScaleQ 4 (millisecondsScaleQ 4 7) = 7) :=
  ⟨by decide, C2_speed_scaling_inverse 4 (by decide) 7⟩

/-- C10: on a powered-on state the NONE command (no signal or unrecognized
code) returns `false` and leaves the controller state and the display
completely unchanged. -/
theorem C10_none_noop (now : ℕ) (s : LedState) (d : Display)
    (hp : s.isSwitchedOn = true) :
    readReceiverAndProcess Button.NONE now s d = (false, s, d) := by
  simp [readReceiverAndProcess, processCases3to6, buttonCode, hp]

/-- C10 witness: NONE on the startup state. -/
theorem C10_none_noop_witness :
    readReceiverAndProcess Button.NONE 0 (initialState 0) display0 =
      (false, initialState 0, display0) :=
  C10_none_noop 0 (initialState 0) display0 rfl

/-- C7: on a powered-on state, a brightness (VOL+/VOL-) or speed (UP/DOWN)
command returns `false`, clamp-adjusts only the corresponding level by one
step, and leaves `currentScenario`, `currentVariant`, `isSwitchedOn` and
`isSwitchModeActive` unchanged. -/
theorem C7_brightness_speed_frame (b : Button) (now : ℕ) (s : LedState) (d : Display)
    (hp : s.isSwitchedOn = true)
    (hb : b = Button.VOL_PLUS ∨ b = Button.VOL_MINUS ∨ b = Button.UP ∨ b = Button.DOWN) :
    (readReceiverAndProcess b now s d).1 = false ∧
    (readReceiverAndProcess b now s d).2.1.currentScenario = s.currentScenario ∧
    (readReceiverAndProcess b now s d).2.1.currentVariant = s.currentVariant ∧
    (readReceiverAndProcess b now s d).2.1.isSwitchedOn = s.isSwitchedOn ∧
    (readReceiverAndProcess b now s d).2.1.isSwitchModeActive = s.isSwitchModeActive ∧
    (b = Button.VOL_PLUS →
      (readReceiverAndProcess b now s d).2.1.currentBrightness =
        min (s.currentBrightness + 1) (NUM_BRIGHTNESS_STEPS - 1) ∧
      (readReceiverAndProcess b now s d).2.1.currentSpeed = s.currentSpeed) ∧
    (b = Button.VOL_MINUS →
      (readReceiverAndProcess b now s d).2.1.currentBrightness =
        max (s.currentBrightness - 1) 0 ∧
      (readReceiverAndProcess b now s d).2.1.currentSpeed = s.currentSpeed) ∧
    (b = Button.UP →
      (readReceiverAndProcess b now s d).2.1.currentSpeed =
        min (s.currentSpeed + 1) (NUM_SPEED_STEPS - 1) ∧
      (readReceiverAndProcess b now s d).2.1.currentBrightness = s.currentBrightness) ∧
    (b = Button.DOWN →
      (readReceiverAndProcess b now s d).2.1.currentSpeed =
        max (s.currentSpeed - 1) 0 ∧
      (readReceiverAndProcess b now s d).2.1.currentBrightness = s.currentBrightness) := by
  rcases hb with rfl | rfl | rfl | rfl <;>
    simp [readReceiverAndProcess, processCases3to6, buttonCode, hp]

/-- C7 witness: VOL- on the startup state (brightness clamps from the top). -/
theorem C7_brightness_speed_frame_witness :
    (readReceiverAndProcess Button.VOL_MINUS 0 (initialState 0) display0).1 = false ∧
    (readReceiverAndProcess Button.VOL_MINUS 0 (initialState 0)
        display0).2.1.currentScenario = (initialState 0).currentScenario :=
  ⟨(C7_brightness_speed_frame Button.VOL_MINUS 0 (initialState 0) display0 rfl
      (Or.inr (Or.inl rfl))).1,
   (C7_brightness_speed_frame Button.VOL_MINUS 0 (initialState 0) display0 rfl
      (Or.inr (Or.inl rfl))).2.1⟩

/-- C6: on a powered-on state, a digit command naming the current scenario
is a complete no-op returning `false`, while a digit naming a different
scenario installs it, resets the variant to 0, blanks and pushes the
display, and returns `true`. -/
theorem C6_digit_idempotent (b : Button) (now : ℕ) (s : LedState) (d : Display)
    (hp : s.isSwitchedOn = true)
    (hd1 : 11 ≤ buttonCode b) (hd2 : buttonCode b ≤ 20) :
    (s.currentScenario = buttonCode b - 11 →
      readReceiverAndProcess b now s d = (false, s, d)) ∧
    (s.currentScenario ≠ buttonCode b - 11 →
      readReceiverAndProcess b now s d =
        (true, { s with currentScenario := buttonCode b - 11, currentVariant := 0 },
         fastledShow (fastledClear d))) := by
  have hbp : b ≠ Button.POWER := by
    intro h; subst h; simp [buttonCode] at hd1
  have hrange : ¬ NUM_SCENARIOS ≤ buttonCode b - 11 := by
    unfold NUM_SCENARIOS; omega
  constructor
  · intro h
    cases b <;> simp [buttonCode] at hd1 hd2 h ⊢ <;>
      simp [readReceiverAndProcess, processCases3to6, buttonCode, NUM_SCENARIOS, hp, h]
  · intro h
    cases b <;> simp [buttonCode] at hd1 hd2 h ⊢ <;>
      simp [readReceiverAndProcess, processCases3to6, buttonCode, NUM_SCENARIOS, hp, h]

/-- C6 witness: digit 0 on the startup state (same scenario, no-op) and
digit 3 (different scenario, switch and cancel). -/
theorem C6_digit_idempotent_witness :
    readReceiverAndProcess Button.NUM_0 0 (initialState 0) display0 =
      (false, initialState 0, display0) :=
  (C6_digit_idempotent Button.NUM_0 0 (initialState 0) display0 rfl
      (by decide) (by decide)).1 rfl

/-- When the rejection-sampling loop succeeds, the chosen scenario differs
from the current one. -/
theorem selectLoop_some_ne (rng : ℕ → ℕ) (cur : ℕ) :
    ∀ (fuel pos sc pos2 : ℕ),
      selectRandomScenarioLoop rng cur pos fuel = some (sc, pos2) → sc ≠ cur := by
  intro fuel
  induction fuel with
  | zero => intro pos sc pos2 h; simp [selectRandomScenarioLoop] at h
  | succ n ih =>
    intro pos sc pos2 h
    simp only [selectRandomScenarioLoop] at h
    split at h
    · exact ih (pos + 1) sc pos2 h
    · next hne =>
      simp only [Option.some.injEq, Prod.mk.injEq] at h
      obtain ⟨rfl, rfl⟩ := h
      exact hne

/-- When the rejection-sampling loop succeeds, the chosen scenario is a
valid index. -/
theorem selectLoop_some_lt (rng : ℕ → ℕ) (cur : ℕ) :
    ∀ (fuel pos sc pos2 : ℕ),
      selectRandomScenarioLoop rng cur pos fuel = some (sc, pos2) →
      sc < NUM_SCENARIOS := by
  intro fuel
  induction fuel with
  | zero => intro pos sc pos2 h; simp [selectRandomScenarioLoop] at h
  | succ n ih =>
    intro pos sc pos2 h
    simp only [selectRandomScenarioLoop] at h
    split at h
    · exact ih (pos + 1) sc pos2 h
    · simp only [Option.some.injEq, Prod.mk.injEq] at h
      obtain ⟨rfl, rfl⟩ := h
      exact Nat.mod_lt _ (by norm_num [NUM_SCENARIOS])

/-- The rejection-sampling loop succeeds as soon as the random stream
yields, within the fuel bound, a draw different from the current
scenario. -/
theorem selectLoop_terminates (rng : ℕ → ℕ) (cur : ℕ) :
    ∀ (i pos fuel : ℕ), i < fuel →
      rng (pos + i) % 256 % NUM_SCENARIOS ≠ cur →
      ∃ sc pos2, selectRandomScenarioLoop rng cur pos fuel = some (sc, pos2) := by
  intro i
  induction i with
  | zero =>
    intro pos fuel hf hi
    obtain ⟨n, rfl⟩ : ∃ n, fuel = n + 1 := ⟨fuel - 1, by omega⟩
    simp only [selectRandomScenarioLoop]
    rw [if_neg (by simpa using hi)]
    exact ⟨_, _, rfl⟩
  | succ n ih =>
    intro pos fuel hf hi
    obtain ⟨m, rfl⟩ : ∃ m, fuel = m + 1 := ⟨fuel - 1, by omega⟩
    simp only [selectRandomScenarioLoop]
    by_cases hc : rng pos % 256 % NUM_SCENARIOS = cur
    · rw [if_pos hc]
      exact ih (pos + 1) m (by omega)
        (by rw [show pos + 1 + n = pos + (n + 1) by omega]; exact hi)
    · rw [if_neg hc]
      exact ⟨_, _, rfl⟩

/-- C8: provided the random stream eventually draws an index different from
the current scenario (guaranteed to be possible because at least two
scenarios are registered), the rejection-sampling loop of
`selectRandomScenario` terminates, and the scenario it installs differs from
the one that was active when it was entered. -/
theorem C8_rejection_sampling (rng : ℕ → ℕ) (cur pos i fuel : ℕ)
    (hf : i < fuel) (hi : rng (pos + i) % 256 % NUM_SCENARIOS ≠ cur) :
    ∃ sc pos2,
      selectRandomScenarioLoop rng cur pos fuel = some (sc, pos2) ∧ sc ≠ cur := by
  obtain ⟨sc, pos2, h⟩ := selectLoop_terminates rng cur i pos fuel hf hi
  exact ⟨sc, pos2, h, selectLoop_some_ne rng cur fuel pos sc pos2 h⟩

/-- C8 witness: the identity stream starting at 0 with current scenario 0:
the first draw is rejected, the second (value 1) is accepted. -/
theorem C8_rejection_sampling_witness :
    ∃ sc pos2,
      selectRandomScenarioLoop (fun n => n) 0 0 2 = some (sc, pos2) ∧ sc ≠ 0 :=
  C8_rejection_sampling (fun n => n) 0 0 1 2 (by decide) (by decide)

/-- C9 counterexample: from the startup state (scenario 0, variant 0, speed
at the midpoint, brightness at maximum, powered on), the command sequence
[digit 3, FAST_FORWARD, FAST_FORWARD, VOL+] signals exactly one
cancellation (not two) and leaves `currentVariant` at 0 (not 2): scenario 3
has a single variant, so both FAST_FORWARD presses are no-ops. -/
theorem C9_counterexample :
    (runCommands [Button.NUM_3, Button.FAST_FORWARD, Button.FAST_FORWARD,
        Button.VOL_PLUS] (initialState 0) display0).1 = 1 ∧
    (runCommands [Button.NUM_3, Button.FAST_FORWARD, Button.FAST_FORWARD,
        Button.VOL_PLUS] (initialState 0) display0).2.1.currentVariant = 0 := by
  decide

/-- C9 (amended): from the startup state, the sequence [digit 3,
FAST_FORWARD, FAST_FORWARD, VOL+] yields scenario 3, variant 0 (scenario 3
has a single variant, so the FAST_FORWARD commands are rejected no-ops),
brightness incremented by one and clamped to the maximum (it stays at the
maximum step 3), exactly one cancellation (the scenario switch), and a
blank display. -/
theorem C9_end_to_end :
    runCommands [Button.NUM_3, Button.FAST_FORWARD, Button.FAST_FORWARD,
        Button.VOL_PLUS] (initialState 0) display0 =
      (1, ⟨3, 3, true, 0, 2, false, 0⟩, display0) := by
  decide

/-- One FAST_FORWARD/FAST_BACK step on a powered-on state keeps the device
on, keeps the scenario, and keeps the variant valid. -/
theorem rrp_fffb_step (b : Button) (now : ℕ) (s : LedState) (d : Display)
    (hp : s.isSwitchedOn = true)
    (hb : b = Button.FAST_FORWARD ∨ b = Button.FAST_BACK)
    (hv : s.currentVariant < scenarioNumVariants s.currentScenario) :
    (readReceiverAndProcess b now s d).2.1.currentScenario = s.currentScenario ∧
    (readReceiverAndProcess b now s d).2.1.isSwitchedOn = true ∧
    (readReceiverAndProcess b now s d).2.1.currentVariant <
      scenarioNumVariants s.currentScenario := by
  have hn : 0 < scenarioNumVariants s.currentScenario :=
    lt_of_le_of_lt (Nat.zero_le _) hv
  rcases hb with rfl | rfl <;>
    by_cases h1 : scenarioNumVariants s.currentScenario = 1 <;>
    simp [readReceiverAndProcess, processCases3to6, buttonCode, hp, h1, hv] <;>
    first
      | exact Nat.mod_lt _ hn
      | omega

/-- Folding any sequence of FAST_FORWARD/FAST_BACK commands through the
state machine keeps the device on, the scenario fixed, and the variant in
range. -/
theorem applyCommands_fffb_variant_lt :
    ∀ (l : List Button) (s : LedState) (d : Display),
      (∀ b ∈ l, b = Button.FAST_FORWARD ∨ b = Button.FAST_BACK) →
      s.isSwitchedOn = true →
      s.currentVariant < scenarioNumVariants s.currentScenario →
      (applyCommands l s d).1.isSwitchedOn = true ∧
      (applyCommands l s d).1.currentScenario = s.currentScenario ∧
      (applyCommands l s d).1.currentVariant <
        scenarioNumVariants s.currentScenario := by
  intro l
  induction l with
  | nil => intro s d _ hp hv; simpa [applyCommands, hp] using hv
  | cons b rest ih =>
    intro s d hl hp hv
    obtain ⟨hsc, hon, hvlt⟩ :=
      rrp_fffb_step b 0 s d hp (hl b (List.mem_cons_self b rest)) hv
    obtain ⟨ih1, ih2, ih3⟩ :=
      ih (readReceiverAndProcess b 0 s d).2.1 (readReceiverAndProcess b 0 s d).2.2
        (fun x hx => hl x (List.mem_cons_of_mem b hx)) hon (by rw [hsc]; exact hvlt)
    refine ⟨?_, ?_, ?_⟩
    · simpa [applyCommands] using ih1
    · simp only [applyCommands]
      rw [ih2, hsc]
    · simp only [applyCommands]
      rw [hsc] at ih3
      exact ih3

/-- C5: on a powered-on state, FAST_FORWARD/FAST_BACK advance or retreat
the variant modulo the variant count of the current scenario (blanking and
pushing the display and returning `true`), wrapping in both directions (in
a 7-variant scenario PREV takes variant 0 to 6 and NEXT takes 6 to 0); on a
single-variant scenario both are no-ops returning `false`; and over every
sequence of such commands the variant stays in range. -/
theorem C5_variant_wraparound (now : ℕ) (s : LedState) (d : Display)
    (hp : s.isSwitchedOn = true) :
    (scenarioNumVariants s.currentScenario = 1 →
      readReceiverAndProcess Button.FAST_FORWARD now s d = (false, s, d) ∧
      readReceiverAndProcess Button.FAST_BACK now s d = (false, s, d)) ∧
    (1 < scenarioNumVariants s.currentScenario →
      readReceiverAndProcess Button.FAST_FORWARD now s d =
        (true,
         { s with currentVariant :=
             (s.currentVariant + 1) % scenarioNumVariants s.currentScenario },
         fastledShow (fastledClear d)) ∧
      readReceiverAndProcess Button.FAST_BACK now s d =
        (true,
         { s with currentVariant :=
             (scenarioNumVariants s.currentScenario + s.currentVariant - 1) %
               scenarioNumVariants s.currentScenario },
         fastledShow (fastledClear d))) ∧
    (scenarioNumVariants s.currentScenario = 7 → s.currentVariant = 0 →
      (readReceiverAndProcess Button.FAST_BACK now s d).2.1.currentVariant = 6) ∧
    (scenarioNumVariants s.currentScenario = 7 → s.currentVariant = 6 →
      (readReceiverAndProcess Button.FAST_FORWARD now s d).2.1.currentVariant = 0) ∧
    (∀ l : List Button,
      (∀ b ∈ l, b = Button.FAST_FORWARD ∨ b = Button.FAST_BACK) →
      s.currentVariant < scenarioNumVariants s.currentScenario →
      (applyCommands l s d).1.currentVariant <
        scenarioNumVariants s.currentScenario) := by
  refine ⟨?_, ?_, ?_, ?_, ?_⟩
  · intro h1
    constructor <;>
      simp [readReceiverAndProcess, processCases3to6, buttonCode, hp, h1]
  · intro h2
    constructor <;>
      simp [readReceiverAndProcess, processCases3to6, buttonCode, hp, h2.ne']
  · intro h7 h0
    simp [readReceiverAndProcess, processCases3to6, buttonCode, hp, h7, h0]
  · intro h7 h6
    simp [readReceiverAndProcess, processCases3to6, buttonCode, hp, h7, h6]
  · intro l hl hv
    exact (applyCommands_fffb_variant_lt l s d hl hp hv).2.2

/-- C5 witness: at scenario 0 (7 variants), FAST_BACK from variant 0 wraps
to variant 6. -/
theorem C5_variant_wraparound_witness :
    (readReceiverAndProcess Button.FAST_BACK 0 (initialState 0)
        display0).2.1.currentVariant = 6 :=
  (C5_variant_wraparound 0 (initialState 0) display0 rfl).2.2.1 rfl rfl

/-- `readReceiverAndProcess` preserves the variant invariant for every
button. -/
theorem rrp_preserves_variantInv (b : Button) (now : ℕ) (s : LedState) (d : Display)
    (h : VariantInv s) : VariantInv (readReceiverAndProcess b now s d).2.1 := by
  obtain ⟨hs, hv⟩ := h
  have hn : 0 < scenarioNumVariants s.currentScenario :=
    lt_of_le_of_lt (Nat.zero_le _) hv
  have hm1 := Nat.mod_lt (s.currentVariant + 1) hn
  have hm2 := Nat.mod_lt
    (scenarioNumVariants s.currentScenario + s.currentVariant - 1) hn
  cases hso : s.isSwitchedOn <;> cases b <;>
    simp [readReceiverAndProcess, processCases3to6, buttonCode, VariantInv, hso] <;>
    (try split_ifs) <;>
    simp_all [VariantInv, NUM_SCENARIOS, scenarioNumVariants, NUM_STANDARD_COLORS]

/-- `shouldSwitchScenario` only touches the rotation timestamp, so it
preserves the variant invariant. -/
theorem shouldSwitch_preserves_variantInv (s : LedState) (now : ℕ)
    (h : VariantInv s) : VariantInv (shouldSwitchScenario s now).2 := by
  unfold shouldSwitchScenario
  split_ifs <;> simpa [VariantInv] using h

/-- The polling loop of `sleep` preserves the variant invariant. -/
theorem sleepLoop_preserves_variantInv (startTime adjustedTime : ℕ) :
    ∀ (trace : List (Button × ℕ)) (s : LedState) (d : Display)
      (c : Bool) (s2 : LedState) (d2 : Display),
      VariantInv s →
      sleepLoop startTime adjustedTime trace s d = some (c, s2, d2) →
      VariantInv s2 := by
  intro trace
  induction trace with
  | nil => intro s d c s2 d2 _ hE; simp [sleepLoop] at hE
  | cons bt rest ih =>
    intro s d c s2 d2 h hE
    obtain ⟨b, t⟩ := bt
    have hr := rrp_preserves_variantInv b t s d h
    simp only [sleepLoop] at hE
    split at hE
    · simp only [Option.some.injEq, Prod.mk.injEq] at hE
      obtain ⟨-, rfl, -⟩ := hE
      exact hr
    · split at hE
      · exact ih _ _ _ _ _ hr hE
      · simp only [Option.some.injEq, Prod.mk.injEq] at hE
        obtain ⟨-, rfl, -⟩ := hE
        exact hr

/-- C4: the variant invariant (the variant index is valid for the current
scenario) is preserved by every command and by the wait primitive; a digit
command that changes the scenario resets the variant to 0, and an
auto-rotate rotation installs a variant valid for the newly chosen
scenario. -/
theorem C4_variant_invariant :
    (∀ (b : Button) (now : ℕ) (s : LedState) (d : Display),
        VariantInv s → VariantInv (readReceiverAndProcess b now s d).2.1) ∧
    (∀ (ms : ℕ) (s : LedState) (d : Display) (now : ℕ) (rng : ℕ → ℕ)
        (pos fuel : ℕ) (trace : List (Button × ℕ)) (c : Bool) (s2 : LedState)
        (d2 : Display) (p2 : ℕ),
        VariantInv s → sleep ms s d now rng pos fuel trace = some (c, s2, d2, p2) →
        VariantInv s2) ∧
    (∀ (b : Button) (now : ℕ) (s : LedState) (d : Display),
        s.isSwitchedOn = true → 11 ≤ buttonCode b → buttonCode b ≤ 20 →
        s.currentScenario ≠ buttonCode b - 11 →
        (readReceiverAndProcess b now s d).2.1.currentScenario = buttonCode b - 11 ∧
        (readReceiverAndProcess b now s d).2.1.currentVariant = 0) ∧
    (∀ (ms : ℕ) (s : LedState) (d : Display) (now : ℕ) (rng : ℕ → ℕ)
        (pos fuel : ℕ) (trace : List (Button × ℕ)) (c : Bool) (s2 : LedState)
        (d2 : Display) (p2 : ℕ),
        (shouldSwitchScenario s now).1 = true →
        sleep ms s d now rng pos fuel trace = some (c, s2, d2, p2) →
        s2.currentVariant < scenarioNumVariants s2.currentScenario) := by
  have hpos : ∀ i, i < NUM_SCENARIOS → 0 < scenarioNumVariants i := by decide
  refine ⟨rrp_preserves_variantInv, ?_, ?_, ?_⟩
  · intro ms s d now rng pos fuel trace c s2 d2 p2 h hE
    have hsw := shouldSwitch_preserves_variantInv s now h
    simp only [sleep] at hE
    split at hE
    · cases heq : selectRandomScenarioLoop rng
          (shouldSwitchScenario s now).2.currentScenario pos fuel with
      | none => rw [heq] at hE; simp at hE
      | some scp =>
        obtain ⟨sc, pos2⟩ := scp
        rw [heq] at hE
        simp only [Option.some.injEq, Prod.mk.injEq] at hE
        obtain ⟨-, rfl, -⟩ := hE
        have hlt := selectLoop_some_lt rng
          (shouldSwitchScenario s now).2.currentScenario fuel pos sc pos2 heq
        exact ⟨by simpa using hlt,
               by simpa using Nat.mod_lt (rng pos2 % 256) (hpos sc hlt)⟩
    · simp only [Option.map_eq_some'] at hE
      obtain ⟨⟨qc, qs, qd⟩, hq, hfq⟩ := hE
      simp only [Prod.mk.injEq] at hfq
      obtain ⟨-, rfl, -⟩ := hfq
      exact sleepLoop_preserves_variantInv now _ trace _ _ qc qs qd hsw hq
  · intro b now s d hp hd1 hd2 hne
    cases b <;> simp [buttonCode] at hd1 hd2 hne ⊢ <;>
      simp [readReceiverAndProcess, processCases3to6, buttonCode, NUM_SCENARIOS,
        hp, hne]
  · intro ms s d now rng pos fuel trace c s2 d2 p2 hdue hE
    simp only [sleep, hdue, if_true] at hE
    cases heq : selectRandomScenarioLoop rng
        (shouldSwitchScenario s now).2.currentScenario pos fuel with
    | none => rw [heq] at hE; simp at hE
    | some scp =>
      obtain ⟨sc, pos2⟩ := scp
      rw [heq] at hE
      simp only [Option.some.injEq, Prod.mk.injEq] at hE
      obtain ⟨-, rfl, -⟩ := hE
      have hlt := selectLoop_some_lt rng
        (shouldSwitchScenario s now).2.currentScenario fuel pos sc pos2 heq
      simpa using Nat.mod_lt (rng pos2 % 256) (hpos sc hlt)

/-- C4 witness: a digit command on the startup state keeps the invariant. -/
theorem C4_variant_invariant_witness :
    VariantInv (readReceiverAndProcess Button.NUM_5 0 (initialState 0) display0).2.1 :=
  C4_variant_invariant.1 Button.NUM_5 0 (initialState 0) display0 (by decide)

/-- C3: when `sleep` is entered with the switch mode active and strictly
more than `SCENARIO_SWITCH_TIMEOUT` milliseconds of unscaled device time
elapsed since the last rotation, it blanks and pushes the display, sets the
rotation timestamp to the entry time, installs a randomly selected
different scenario with a randomized variant valid for it, and returns
cancel = true at once, independently of the requested duration and of any
pending input; otherwise no rotation happens: `sleep` reduces to the plain
polling loop on the unchanged state. -/
theorem C3_auto_rotate (ms : ℕ) (s : LedState) (d : Display) (now : ℕ)
    (rng : ℕ → ℕ) (pos fuel : ℕ) (trace : List (Button × ℕ)) :
    ((s.isSwitchModeActive = true ∧ s.lastScenarioSwitchTimestamp ≤ now ∧
        now < U32 ∧
        SCENARIO_SWITCH_TIMEOUT < now - s.lastScenarioSwitchTimestamp) →
      ∀ sc pos2,
        selectRandomScenarioLoop rng s.currentScenario pos fuel = some (sc, pos2) →
        sc ≠ s.currentScenario ∧
        sleep ms s d now rng pos fuel trace =
          some (true,
            { s with lastScenarioSwitchTimestamp := now, currentScenario := sc,
                     currentVariant := rng pos2 % 256 % scenarioNumVariants sc },
            fastledShow (fastledClear d), pos2 + 1)) ∧
    ((s.isSwitchModeActive = false ∨
        (s.lastScenarioSwitchTimestamp ≤ now ∧ now < U32 ∧
          now - s.lastScenarioSwitchTimestamp ≤ SCENARIO_SWITCH_TIMEOUT)) →
      sleep ms s d now rng pos fuel trace =
        Option.map (fun q => (q.1, q.2.1, q.2.2, pos))
          (sleepLoop now (sleepAdjustDuration ms s.currentSpeed) trace s d)) := by
  constructor
  · rintro ⟨h1, h2, h3, h4⟩ sc pos2 hsel
    have hsub : sub32 now s.lastScenarioSwitchTimestamp =
        now - s.lastScenarioSwitchTimestamp := by
      unfold sub32 U32 at *
      omega
    have hdue : shouldSwitchScenario s now =
        (true, { s with lastScenarioSwitchTimestamp := now }) := by
      unfold shouldSwitchScenario
      rw [hsub]
      simp [h1, h4]
    refine ⟨selectLoop_some_ne rng s.currentScenario fuel pos sc pos2 hsel, ?_⟩
    simp [sleep, hdue, hsel]
  · intro h
    have hnot : shouldSwitchScenario s now = (false, s) := by
      unfold shouldSwitchScenario
      rcases h with h1 | ⟨h2, h3, h4⟩
      · simp [h1]
      · have hsub : sub32 now s.lastScenarioSwitchTimestamp =
            now - s.lastScenarioSwitchTimestamp := by
          unfold sub32 U32 at *
          omega
        rw [hsub]
        split_ifs <;> first | rfl | omega
    simp [sleep, hnot]

/-- C3 witness: switch mode on, 60001 ms elapsed, identity random stream:
the rotation fires, switches scenario 0 to scenario 1 with variant 2, and
cancels. -/
theorem C3_auto_rotate_witness :
    (1 : ℕ) ≠ (0 : ℕ) ∧
    sleep 123 ⟨0, 3, true, 0, 2, true, 0⟩ display0 60001 (fun n => n) 0 2 [] =
      some (true, ⟨1, 3, true, 2, 2, true, 60001⟩,
        fastledShow (fastledClear display0), 3) :=
  (C3_auto_rotate 123 ⟨0, 3, true, 0, 2, true, 0⟩ display0 60001
      (fun n => n) 0 2 []).1
    ⟨rfl, by decide, by decide, by decide⟩ 1 2 (by decide)

end LedStrip
